import Mathlib

/-!
Shallow embedding of the assignment-monitor canister, src/src/index.ts.
The seven azle StableBTreeMap tables are modelled as association lists
over string keys with insert-replace semantics; ic.setTimer and
ic.clearTimer are modelled by an explicit list of armed one-shot timers
together with a fresh-id counter; uuidv4 and Math.random are passed in
as explicit parameters.  Both structured Err results and thrown Errors
are modelled as Except errors; an error carries no state, which matches
the Internet Computer's rollback-on-trap semantics.
-/

namespace AssignmentMonitor

/-- Lookup in a string-keyed association list; models StableBTreeMap.get. -/
def mapFind {α : Type} (m : List (String × α)) (k : String) : Option α :=
  match m with
  | [] => none
  | (k1, v) :: rest => if k1 = k then some v else mapFind rest k

/-- Insert-or-replace in a string-keyed association list; models
StableBTreeMap.insert, which overwrites an existing key. -/
def mapInsert {α : Type} (m : List (String × α)) (k : String) (v : α) : List (String × α) :=
  match m with
  | [] => [(k, v)]
  | (k1, v1) :: rest => if k1 = k then (k, v) :: rest else (k1, v1) :: mapInsert rest k v

theorem mapFind_mapInsert_self {α : Type} (m : List (String × α)) (k : String) (v : α) :
    mapFind (mapInsert m k v) k = some v := by
  induction m with
  | nil => simp [mapFind, mapInsert]
  | cons hd tl ih =>
    obtain ⟨k1, v1⟩ := hd
    by_cases h : k1 = k
    · simp [mapFind, mapInsert, h]
    · simp [mapFind, mapInsert, h, ih]

theorem mapFind_mapInsert_of_ne {α : Type} (m : List (String × α)) (k k2 : String) (v : α)
    (h : k2 ≠ k) : mapFind (mapInsert m k v) k2 = mapFind m k2 := by
  have h3 : ¬k = k2 := fun h4 => h h4.symm
  induction m with
  | nil => simp [mapFind, mapInsert, h3]
  | cons hd tl ih =>
    obtain ⟨k1, v1⟩ := hd
    by_cases h1 : k1 = k
    · subst h1
      simp [mapFind, mapInsert, h3]
    · simp [mapFind, mapInsert, h1, ih]

theorem mapInsert_of_find_eq {α : Type} (m : List (String × α)) (k : String) (v : α)
    (h : mapFind m k = some v) : mapInsert m k v = m := by
  induction m with
  | nil => simp [mapFind] at h
  | cons hd tl ih =>
    obtain ⟨k1, v1⟩ := hd
    by_cases h1 : k1 = k
    · subst h1
      simp [mapFind] at h
      simp [mapInsert, h]
    · simp [mapFind, h1] at h
      simp [mapInsert, h1, ih h]

theorem mapFind_mapInsert {α : Type} (m : List (String × α)) (k k2 : String) (v : α) :
    mapFind (mapInsert m k v) k2 = if k2 = k then some v else mapFind m k2 := by
  by_cases h : k2 = k
  · subst h
    simp [mapFind_mapInsert_self]
  · simp [h, mapFind_mapInsert_of_ne m k k2 v h]

/-- Participant record, index.ts lines 6-12. -/
structure Participant where
  id : String
  name : String
  areaOfStudy : String
  isSupervisor : Bool
  hasStaked : Bool
deriving DecidableEq

/-- Registration payload, index.ts lines 14-17. -/
structure ParticipantInfo where
  name : String
  areaOfStudy : String
deriving DecidableEq

/-- Assignment record, index.ts lines 19-23; dueDate is a day count. -/
structure Assignment where
  id : String
  topic : String
  dueDate : Nat
deriving DecidableEq

/-- Assignment payload, index.ts lines 25-28. -/
structure AssignmentInfo where
  topic : String
  dueDate : Nat
deriving DecidableEq

/-- Progress record ("escrow ticket"), index.ts lines 30-36. -/
structure StudentToSupervisorRecord where
  id : String
  studentId : String
  supervisorId : String
  assignmentId : String
  isFinished : Bool
deriving DecidableEq

/-- Error outcomes of the canister operations: the structured Err variants
of ParticipantError (index.ts lines 46-49) together with one constructor
per thrown Error message. -/
inductive CanisterError where
  | IdDoesNotExistError (id : String)
  | StakedIsTooLow (amount : Nat)
  | NeedToStakeFirst
  | AssignmentNotFound (id : String)
  | NoStudentToMonitor (id : String)
  | ProgressNotFound (id : String)
  | TimerIdNotFound (id : String)
  | WorkNotUploaded (id : String)
  | FailedToFindAssignment
  | NotAuthorizedToClaim
  | ParticipantLookupFailed
  | LinkFailed
deriving DecidableEq

/-- Canister state: the seven StableBTreeMaps (index.ts lines 51-57), the
global supervisorList (line 59), and the timer scheduler modelled as a
list of armed one-shot timers (timerId, period, participantId whose
balance the callback zeroes) plus a fresh timer-id counter. -/
structure State where
  participantStakeBalance : List (String × Nat)
  idToParticipantRecord : List (String × Participant)
  assignmentStorage : List (String × Assignment)
  progressStorage : List (String × StudentToSupervisorRecord)
  workUnderSupervison : List (String × String)
  uploadedWork : List (String × String)
  timerIdStorage : List (String × Nat)
  supervisorList : List Participant
  activeTimers : List (Nat × Nat × String)
  nextTimerId : Nat
deriving DecidableEq

/-- Minimum stake threshold, index.ts line 4. -/
def minStakeAmount : Nat := 1000

/-- Random index helper, index.ts lines 369-370:
Math.floor(Math.random() * (max - min) + 1) + min, with the random draw
r passed in explicitly as a rational in [0, 1). -/
def randomInt (r : ℚ) (maxN minN : Int) : Int :=
  ⌊r * ((maxN : ℚ) - (minN : ℚ)) + 1⌋ + minN

/-- List indexing by a possibly-negative JavaScript index: returns none
exactly when supervisorList[index] is undefined. -/
def listGetInt {α : Type} (l : List α) (i : Int) : Option α :=
  if i < 0 then none else l[i.toNat]?

/-- Timer-callback body armed by setDueDate, index.ts lines 379-381: the
due-date forfeiture unconditionally zeroes the bound student's stake
balance and touches nothing else. -/
def forfeit (st : State) (participantId : String) : State :=
  { st with participantStakeBalance := mapInsert st.participantStakeBalance participantId 0 }

/-- Model of ic.setTimer as used by setDueDate, index.ts lines 378-382:
arms a one-shot timer that will forfeit the given student's balance and
returns the fresh TimerId. -/
def setDueDate (st : State) (period : Nat) (student : Participant) : Nat × State :=
  (st.nextTimerId,
    { st with
        activeTimers := st.activeTimers ++ [(st.nextTimerId, period, student.id)]
        nextTimerId := st.nextTimerId + 1 })

/-- Model of ic.clearTimer, index.ts line 288: disarms the timer with the
given id. -/
def clearTimer (st : State) (timerId : Nat) : State :=
  { st with activeTimers := st.activeTimers.filter (fun t => t.1 ≠ timerId) }

/-- stake, index.ts lines 148-178. -/
def stake (st : State) (id : String) (amountToStake : Nat) :
    Except CanisterError (String × State) :=
  match mapFind st.idToParticipantRecord id with
  | none => .error (.IdDoesNotExistError id)
  | some participant =>
    if amountToStake < minStakeAmount then .error (.StakedIsTooLow amountToStake)
    else
      let st1 := { st with
        participantStakeBalance := mapInsert st.participantStakeBalance id amountToStake }
      let updatedParticipant : Participant := { participant with hasStaked := true }
      let st2 := { st1 with
        idToParticipantRecord :=
          mapInsert st1.idToParticipantRecord updatedParticipant.id updatedParticipant }
      let st3 :=
        if updatedParticipant.isSupervisor then
          { st2 with supervisorList := st2.supervisorList ++ [updatedParticipant] }
        else st2
      .ok (toString amountToStake ++ " successfully staked by " ++ id, st3)

/-- createStudent, index.ts lines 185-194; the fresh uuid is the newId
parameter.  The source performs no validation and cannot fail. -/
def createStudent (st : State) (newId : String) (info : ParticipantInfo) : String × State :=
  let student : Participant :=
    { id := newId, name := info.name, areaOfStudy := info.areaOfStudy,
      isSupervisor := false, hasStaked := false }
  ("Student: " ++ student.name ++ ", ID: " ++ student.id,
    { st with idToParticipantRecord := mapInsert st.idToParticipantRecord student.id student })

/-- createSupervisor, index.ts lines 201-210; the fresh uuid is the newId
parameter.  The source performs no validation and cannot fail. -/
def createSupervisor (st : State) (newId : String) (info : ParticipantInfo) : String × State :=
  let supervisor : Participant :=
    { id := newId, name := info.name, areaOfStudy := info.areaOfStudy,
      isSupervisor := true, hasStaked := false }
  ("Supervisor: " ++ supervisor.name ++ ", ID: " ++ supervisor.id,
    { st with idToParticipantRecord :=
        mapInsert st.idToParticipantRecord supervisor.id supervisor })

/-- linkStudentToSuperVisor, index.ts lines 341-361.  The random draw r
and the fresh uuid newId are explicit parameters.  When the computed
index is out of bounds, supervisorList[index] is undefined, the access
supervisor.id throws, and the catch block rethrows the generic
"failed to eStudents havent xecute the code" error, modelled as
LinkFailed. -/
def linkStudentToSuperVisor (st : State) (r : ℚ) (newId : String) (student : Participant)
    (assignment : Assignment) : Except CanisterError (String × State) :=
  let supervisorIndex := randomInt r ((st.supervisorList.length : Int) - 1) 0
  match listGetInt st.supervisorList supervisorIndex with
  | none => .error .LinkFailed
  | some supervisor =>
    let studentToSupervisor : StudentToSupervisorRecord :=
      { id := newId, studentId := student.id, supervisorId := supervisor.id,
        assignmentId := assignment.id, isFinished := false }
    .ok (studentToSupervisor.id,
      { st with
          progressStorage :=
            mapInsert st.progressStorage studentToSupervisor.id studentToSupervisor
          workUnderSupervison :=
            mapInsert st.workUnderSupervison supervisor.id studentToSupervisor.id })

/-- uploadAssignment, index.ts lines 218-242.  The fresh uuids for the
assignment and the progress record, and the random draw r used by the
matcher, are explicit parameters; the returned string is the progress
record id (the source returns a message embedding this id and the
assignment id). -/
def uploadAssignment (st : State) (r : ℚ) (newAssignmentId newRecordId : String)
    (studentId : String) (assignmentInfo : AssignmentInfo) :
    Except CanisterError (String × State) :=
  match mapFind st.idToParticipantRecord studentId with
  | none => .error (.IdDoesNotExistError studentId)
  | some student =>
    if student.hasStaked = false then .error .NeedToStakeFirst
    else
      let assignment : Assignment :=
        { id := newAssignmentId, topic := assignmentInfo.topic,
          dueDate := assignmentInfo.dueDate }
      match linkStudentToSuperVisor st r newRecordId student assignment with
      | .error e => .error e
      | .ok (recordId, st1) =>
        let st2 := { st1 with
          assignmentStorage := mapInsert st1.assignmentStorage assignment.id assignment }
        let calcPeriod := assignment.dueDate * 24 * 60 * 60
        let armed := setDueDate st2 calcPeriod student
        let st3 := { armed.2 with
          timerIdStorage := mapInsert armed.2.timerIdStorage assignment.id armed.1 }
        .ok (recordId, st3)

/-- uploadSolution, index.ts lines 250-257. -/
def uploadSolution (st : State) (assignmentId workDone : String) :
    Except CanisterError State :=
  match mapFind st.assignmentStorage assignmentId with
  | none => .error (.AssignmentNotFound assignmentId)
  | some _ =>
    .ok { st with uploadedWork := mapInsert st.uploadedWork assignmentId workDone }

/-- viewTheWorkDone, index.ts lines 116-136. -/
def viewTheWorkDone (st : State) (id : String) : Except CanisterError String :=
  match mapFind st.workUnderSupervison id with
  | none => .error (.NoStudentToMonitor id)
  | some progressId =>
    match mapFind st.progressStorage progressId with
    | none => .error (.ProgressNotFound progressId)
    | some workStructure =>
      match mapFind st.uploadedWork workStructure.assignmentId with
      | none => .error (.WorkNotUploaded workStructure.assignmentId)
      | some workDone => .ok workDone

/-- verifyWorkDone, index.ts lines 264-289.  The source constructs
newWorkStructure with isFinished set to true (lines 277-280) but never
inserts it into progressStorage; the embedding mirrors that: the
record update is computed, used only for its assignmentId, and dropped. -/
def verifyWorkDone (st : State) (id : String) : Except CanisterError State :=
  match mapFind st.workUnderSupervison id with
  | none => .error (.NoStudentToMonitor id)
  | some progressId =>
    match mapFind st.progressStorage progressId with
    | none => .error (.ProgressNotFound progressId)
    | some workStructure =>
      let newWorkStructure : StudentToSupervisorRecord :=
        { workStructure with isFinished := true }
      let assignmentId := newWorkStructure.assignmentId
      match mapFind st.timerIdStorage assignmentId with
      | none => .error (.TimerIdNotFound assignmentId)
      | some timerId => .ok (clearTimer st timerId)

/-- claimFunds, index.ts lines 297-320.  The guard is the source's literal
condition: studentId differs from the record's studentId AND the record
is unfinished.  The returned amount is the raw balance lookup of line
309 (the source assigns the Opt to amount without unwrapping); the
unchecked participantOpt.Some of line 312 is modelled as an error when
the lookup misses, matching the trap that the undefined access causes. -/
def claimFunds (st : State) (studentId specialId : String) :
    Except CanisterError (Option Nat × State) :=
  match mapFind st.progressStorage specialId with
  | none => .error .FailedToFindAssignment
  | some progressCheck =>
    if studentId ≠ progressCheck.studentId ∧ progressCheck.isFinished = false then
      .error .NotAuthorizedToClaim
    else
      let amount := mapFind st.participantStakeBalance progressCheck.studentId
      let st1 := { st with
        participantStakeBalance :=
          mapInsert st.participantStakeBalance progressCheck.studentId 0 }
      match mapFind st1.idToParticipantRecord progressCheck.studentId with
      | none => .error .ParticipantLookupFailed
      | some participant =>
        let updatedParticipant : Participant := { participant with hasStaked := false }
        .ok (amount,
          { st1 with
              idToParticipantRecord :=
                mapInsert st1.idToParticipantRecord updatedParticipant.id
                  updatedParticipant })

/-- Canister state right after deployment: every table empty, no armed
timers. -/
def emptyState : State :=
  { participantStakeBalance := [], idToParticipantRecord := [], assignmentStorage := [],
    progressStorage := [], workUnderSupervison := [], uploadedWork := [],
    timerIdStorage := [], supervisorList := [], activeTimers := [], nextTimerId := 0 }

/-- Sample staked student. -/
def stu1 : Participant :=
  { id := "s1", name := "Alice", areaOfStudy := "CS", isSupervisor := false, hasStaked := true }

/-- Sample staked supervisor at pool index 0. -/
def sup0 : Participant :=
  { id := "v0", name := "Bob", areaOfStudy := "CS", isSupervisor := true, hasStaked := true }

/-- Sample staked supervisor at pool index 1. -/
def sup1 : Participant :=
  { id := "v1", name := "Carol", areaOfStudy := "CS", isSupervisor := true, hasStaked := true }

/-- Sample not-yet-staked supervisor. -/
def supNew : Participant :=
  { id := "v2", name := "Dan", areaOfStudy := "CS", isSupervisor := true, hasStaked := false }

/-- Sample unfinished progress record binding stu1, sup1 and assignment a1. -/
def rec1 : StudentToSupervisorRecord :=
  { id := "p1", studentId := "s1", supervisorId := "v1", assignmentId := "a1",
    isFinished := false }

/-- Sample assignment with a one-day due date. -/
def asg1 : Assignment := { id := "a1", topic := "t", dueDate := 1 }

/-- State holding an unfinished progress record for stu1 with a 1000-token
stake. -/
def claimState : State :=
  { emptyState with
      progressStorage := [("p1", rec1)]
      participantStakeBalance := [("s1", 1000)]
      idToParticipantRecord := [("s1", stu1)] }

/-- State claimState after a first successful claimFunds("s1", "p1"):
balance zeroed and hasStaked cleared. -/
def claimStateAfter : State :=
  { claimState with
      participantStakeBalance := [("s1", 0)]
      idToParticipantRecord := [("s1", { stu1 with hasStaked := false })] }

/-- State where supervisor v1 watches the unfinished record p1 whose
assignment a1 has armed timer 7. -/
def verifyState : State :=
  { emptyState with
      workUnderSupervison := [("v1", "p1")]
      progressStorage := [("p1", rec1)]
      timerIdStorage := [("a1", 7)]
      activeTimers := [(7, 86400, "s1")] }

/-- State with a staked student registered and an empty supervisor pool. -/
def emptyPoolState : State :=
  { emptyState with idToParticipantRecord := [("s1", stu1)] }

/-- State with a staked student and exactly one supervisor in the pool. -/
def singlePoolState : State :=
  { emptyState with
      idToParticipantRecord := [("s1", stu1)]
      supervisorList := [sup1] }

/-- State with a registered, not-yet-staked supervisor. -/
def stakeState : State :=
  { emptyState with idToParticipantRecord := [("v2", supNew)] }

/-- State with a staked student and a two-supervisor pool, ready for the
upload round trip. -/
def roundState : State :=
  { emptyState with
      idToParticipantRecord := [("s1", stu1)]
      supervisorList := [sup0, sup1] }

/-- State roundState after uploadAssignment with draw 0, assignment id a1
and record id p1: the matcher picked index 1 (sup1). -/
def roundStateAfterUpload : State :=
  { roundState with
      progressStorage := [("p1", rec1)]
      workUnderSupervison := [("v1", "p1")]
      assignmentStorage := [("a1", asg1)]
      activeTimers := [(0, 86400, "s1")]
      nextTimerId := 1
      timerIdStorage := [("a1", 0)] }

/-- State roundStateAfterUpload after uploadSolution("a1", "done"). -/
def roundStateAfterSolution : State :=
  { roundStateAfterUpload with uploadedWork := [("a1", "done")] }

/-- State whose only balance entry is already zero. -/
def zeroBalState : State :=
  { emptyState with participantStakeBalance := [("s1", 0)] }

/-- State produced by a successful claimFunds pass: the record's student
balance is zeroed and the participant found for that student is stored
again under its own id with hasStaked cleared. -/
def claimResultState (st : State) (pc : StudentToSupervisorRecord)
    (participant : Participant) : State :=
  { st with
      participantStakeBalance := mapInsert st.participantStakeBalance pc.studentId 0
      idToParticipantRecord :=
        mapInsert st.idToParticipantRecord participant.id
          { participant with hasStaked := false } }

/-- State produced by a successful uploadAssignment: the matcher stored
the progress record and the supervision pointer, the assignment was
stored, the due-date timer armed and its TimerId recorded. -/
def uploadResultState (st : State) (aid rid : String) (info : AssignmentInfo)
    (student sup : Participant) : State :=
  { st with
      progressStorage := mapInsert st.progressStorage rid
        { id := rid, studentId := student.id, supervisorId := sup.id,
          assignmentId := aid, isFinished := false }
      workUnderSupervison := mapInsert st.workUnderSupervison sup.id rid
      assignmentStorage := mapInsert st.assignmentStorage aid
        { id := aid, topic := info.topic, dueDate := info.dueDate }
      activeTimers :=
        st.activeTimers ++ [(st.nextTimerId, info.dueDate * 24 * 60 * 60, student.id)]
      nextTimerId := st.nextTimerId + 1
      timerIdStorage := mapInsert st.timerIdStorage aid st.nextTimerId }

theorem randomInt_zero (maxN minN : Int) : randomInt 0 maxN minN = 1 + minN := by
  simp [randomInt]

theorem randomInt_self (r : ℚ) (n : Int) : randomInt r n n = 1 + n := by
  simp [randomInt]

theorem listGetInt_nil {α : Type} (i : Int) : listGetInt ([] : List α) i = none := by
  simp [listGetInt]

theorem claimFunds_ok_elim {st : State} {sid rid : String} {amt : Option Nat} {st2 : State}
    (h : claimFunds st sid rid = .ok (amt, st2)) :
    ∃ pc participant,
      mapFind st.progressStorage rid = some pc ∧
      ¬(sid ≠ pc.studentId ∧ pc.isFinished = false) ∧
      mapFind st.idToParticipantRecord pc.studentId = some participant ∧
      amt = mapFind st.participantStakeBalance pc.studentId ∧
      st2 = claimResultState st pc participant := by
  simp only [claimFunds] at h
  split at h
  · exact absurd h (by simp)
  next pc hpc =>
    split at h
    · exact absurd h (by simp)
    next hguard =>
      split at h
      · exact absurd h (by simp)
      next participant hpart =>
        simp only [Except.ok.injEq, Prod.mk.injEq] at h
        exact ⟨pc, participant, hpc, hguard, hpart, h.1.symm, h.2.symm⟩

theorem claimFunds_ok_intro (st : State) (sid rid : String) {pc : StudentToSupervisorRecord}
    {participant : Participant}
    (h1 : mapFind st.progressStorage rid = some pc)
    (h2 : ¬(sid ≠ pc.studentId ∧ pc.isFinished = false))
    (h3 : mapFind st.idToParticipantRecord pc.studentId = some participant) :
    claimFunds st sid rid =
      .ok (mapFind st.participantStakeBalance pc.studentId,
        claimResultState st pc participant) := by
  unfold claimFunds claimResultState
  rw [h1]
  simp only [if_neg h2, h3]

theorem linkStudentToSuperVisor_ok_elim {st : State} {r : ℚ} {newId : String}
    {student : Participant} {assignment : Assignment} {recordId : String} {stL : State}
    (h : linkStudentToSuperVisor st r newId student assignment = .ok (recordId, stL)) :
    ∃ sup, listGetInt st.supervisorList
        (randomInt r ((st.supervisorList.length : Int) - 1) 0) = some sup ∧
      recordId = newId ∧
      stL = { st with
        progressStorage := mapInsert st.progressStorage newId
          { id := newId, studentId := student.id, supervisorId := sup.id,
            assignmentId := assignment.id, isFinished := false }
        workUnderSupervison := mapInsert st.workUnderSupervison sup.id newId } := by
  simp only [linkStudentToSuperVisor] at h
  split at h
  · exact absurd h (by simp)
  next sup hsup =>
    simp only [Except.ok.injEq, Prod.mk.injEq] at h
    exact ⟨sup, hsup, h.1.symm, h.2.symm⟩

theorem uploadAssignment_ok_elim {st : State} {r : ℚ} {aid rid sid : String}
    {info : AssignmentInfo} {res : String} {st1 : State}
    (h : uploadAssignment st r aid rid sid info = .ok (res, st1)) :
    ∃ student sup,
      mapFind st.idToParticipantRecord sid = some student ∧
      student.hasStaked = true ∧
      listGetInt st.supervisorList
        (randomInt r ((st.supervisorList.length : Int) - 1) 0) = some sup ∧
      res = rid ∧
      st1 = uploadResultState st aid rid info student sup := by
  simp only [uploadAssignment] at h
  split at h
  · exact absurd h (by simp)
  next student hstu =>
    split at h
    · exact absurd h (by simp)
    next hstk =>
      split at h
      · exact absurd h (by simp)
      next recordId stL hlk =>
        obtain ⟨sup, hsup, hrec, hstL⟩ := linkStudentToSuperVisor_ok_elim hlk
        subst hstL
        simp only [Except.ok.injEq, Prod.mk.injEq] at h
        refine ⟨student, sup, hstu, by simpa using hstk, hsup, (h.1.symm).trans hrec, ?_⟩
        exact h.2.symm

theorem stake_ok (st : State) (id : String) (amount : Nat) (p : Participant)
    (hp : mapFind st.idToParticipantRecord id = some p)
    (hamt : minStakeAmount ≤ amount) :
    stake st id amount =
      .ok (toString amount ++ " successfully staked by " ++ id,
        if p.isSupervisor then
          { st with
              participantStakeBalance := mapInsert st.participantStakeBalance id amount
              idToParticipantRecord :=
                mapInsert st.idToParticipantRecord p.id { p with hasStaked := true }
              supervisorList := st.supervisorList ++ [{ p with hasStaked := true }] }
        else
          { st with
              participantStakeBalance := mapInsert st.participantStakeBalance id amount
              idToParticipantRecord :=
                mapInsert st.idToParticipantRecord p.id { p with hasStaked := true } }) := by
  have hnl : ¬amount < minStakeAmount := Nat.not_lt.mpr hamt
  by_cases hsup : p.isSupervisor <;> simp [stake, hp, hnl, hsup]

/-- C1: the claim says claimFunds must fail NotAuthorized whenever the
record is unfinished, even for the matching student.  The code's guard
(index.ts line 305) only rejects when the id mismatches AND the record is
unfinished, so the matching student claims an unfinished record: on
claimState (record p1 unfinished, stake 1000) the call succeeds and pays
out the full 1000. -/
theorem claimFunds_matching_student_unfinished_succeeds :
    rec1.isFinished = false ∧
    (claimFunds claimState "s1" "p1").toOption.map Prod.fst = some (some 1000) :=
  ⟨rfl, rfl⟩

/-- C2: the claim says a successful verifyWorkDone stores the record with
isFinished = true and cancels the timer.  The code (index.ts lines
277-289) builds the updated record but never inserts it: on verifyState
the call succeeds and cancels timer 7, yet the stored record p1 still has
isFinished = false. -/
theorem verifyWorkDone_drops_isFinished_update :
    (verifyWorkDone verifyState "v1").toOption.map
        (fun st => (mapFind st.progressStorage "p1", st.activeTimers)) =
      some (some rec1, []) ∧
    rec1.isFinished = false :=
  ⟨rfl, rfl⟩

/-- C6 counterexample: registration performs no validation, contradicting
the claim that it fails with a ValidationError on an empty name or
areaOfStudy: createStudent with both fields empty succeeds and stores the
fresh participant. -/
theorem createStudent_empty_name_succeeds :
    mapFind (createStudent emptyState "id1"
        { name := "", areaOfStudy := "" }).2.idToParticipantRecord "id1" =
      some { id := "id1", name := "", areaOfStudy := "", isSupervisor := false,
             hasStaked := false } :=
  rfl

/-- C6 amended: createStudent and createSupervisor never validate their
input and never fail; every call (empty strings included) stores a fresh
participant with the given name and areaOfStudy, hasStaked = false, role
flag false resp. true, and leaves the stake-balance table untouched (a
fresh participant has no balance entry, i.e. balance 0). -/
theorem create_participant_no_validation_fresh (st : State) (newId : String)
    (info : ParticipantInfo) :
    mapFind (createStudent st newId info).2.idToParticipantRecord newId =
      some { id := newId, name := info.name, areaOfStudy := info.areaOfStudy,
             isSupervisor := false, hasStaked := false } ∧
    (createStudent st newId info).2.participantStakeBalance = st.participantStakeBalance ∧
    mapFind (createSupervisor st newId info).2.idToParticipantRecord newId =
      some { id := newId, name := info.name, areaOfStudy := info.areaOfStudy,
             isSupervisor := true, hasStaked := false } ∧
    (createSupervisor st newId info).2.participantStakeBalance = st.participantStakeBalance := by
  refine ⟨?_, rfl, ?_, rfl⟩ <;>
    simp [createStudent, createSupervisor, mapFind_mapInsert_self]

/-- C3: after one claimFunds call succeeds, the stored balance of the
record's student is zero, so an immediate second claimFunds with the same
studentId and record id returns exactly zero — in particular it either
fails or returns zero, and never pays out a positive amount twice. -/
theorem claimFunds_second_claim_returns_zero (st : State) (sid rid : String)
    (amt : Option Nat) (st2 : State)
    (h : claimFunds st sid rid = .ok (amt, st2)) :
    ∃ st3, claimFunds st2 sid rid = .ok (some 0, st3) := by
  obtain ⟨pc, participant, hpc, hguard, hpart, hamt, hst2⟩ := claimFunds_ok_elim h
  subst hst2
  by_cases hid : pc.studentId = participant.id
  · have hpart2 : mapFind (claimResultState st pc participant).idToParticipantRecord
        pc.studentId = some { participant with hasStaked := false } := by
      show mapFind (mapInsert st.idToParticipantRecord participant.id
        { participant with hasStaked := false }) pc.studentId = _
      rw [hid]
      exact mapFind_mapInsert_self _ _ _
    refine ⟨claimResultState (claimResultState st pc participant) pc
      { participant with hasStaked := false }, ?_⟩
    rw [claimFunds_ok_intro (claimResultState st pc participant) sid rid hpc hguard hpart2]
    show Except.ok
        (mapFind (mapInsert st.participantStakeBalance pc.studentId 0) pc.studentId, _) = _
    rw [mapFind_mapInsert_self]
  · have hpart2 : mapFind (claimResultState st pc participant).idToParticipantRecord
        pc.studentId = some participant := by
      show mapFind (mapInsert st.idToParticipantRecord participant.id
        { participant with hasStaked := false }) pc.studentId = _
      rw [mapFind_mapInsert_of_ne _ _ _ _ hid]
      exact hpart
    refine ⟨claimResultState (claimResultState st pc participant) pc participant, ?_⟩
    rw [claimFunds_ok_intro (claimResultState st pc participant) sid rid hpc hguard hpart2]
    show Except.ok
        (mapFind (mapInsert st.participantStakeBalance pc.studentId 0) pc.studentId, _) = _
    rw [mapFind_mapInsert_self]

/-- Witness for C3: on claimState the first claim by s1 on record p1
succeeds with amount 1000, and the second claim on the resulting state
returns zero. -/
theorem claimFunds_second_claim_returns_zero_witness :
    ∃ st3, claimFunds claimStateAfter "s1" "p1" = .ok (some 0, st3) :=
  claimFunds_second_claim_returns_zero claimState "s1" "p1" (some 1000) claimStateAfter rfl

/-- C4: with an empty supervisor pool, uploadAssignment by an existing,
staked student does not fail with a structured NoSupervisorAvailable
error — no such variant exists in the code.  Indexing the empty pool
makes supervisor.id throw, and the catch block of linkStudentToSuperVisor
(index.ts lines 357-360) rethrows the unrelated generic error modelled as
LinkFailed, whatever the random draw is. -/
theorem uploadAssignment_empty_pool_generic_error (st : State) (r : ℚ)
    (aid rid sid : String) (info : AssignmentInfo) (student : Participant)
    (hpool : st.supervisorList = [])
    (hs : mapFind st.idToParticipantRecord sid = some student)
    (hstaked : student.hasStaked = true) :
    uploadAssignment st r aid rid sid info = .error .LinkFailed := by
  have hlk : linkStudentToSuperVisor st r rid student
      { id := aid, topic := info.topic, dueDate := info.dueDate } = .error .LinkFailed := by
    simp [linkStudentToSuperVisor, hpool, listGetInt_nil]
  simp [uploadAssignment, hs, hstaked, hlk]

/-- Witness for C4: on emptyPoolState with draw 0 the upload by staked
student s1 yields the generic LinkFailed error. -/
theorem uploadAssignment_empty_pool_generic_error_witness :
    uploadAssignment emptyPoolState 0 "a1" "p1" "s1" { topic := "t", dueDate := 1 } =
      .error .LinkFailed :=
  uploadAssignment_empty_pool_generic_error emptyPoolState 0 "a1" "p1" "s1"
    { topic := "t", dueDate := 1 } stu1 rfl rfl rfl

/-- C5: for an existing participant and an amount at or above the minimum
stake, stake succeeds; afterwards the stored balance equals exactly the
amount (insert-replace, not add), the stored participant has
hasStaked = true, and, when the participant is a supervisor, the updated
participant has been appended to the supervisor pool. -/
theorem stake_success_sets_balance_and_pool (st : State) (id : String) (amount : Nat)
    (p : Participant) (hp : mapFind st.idToParticipantRecord id = some p)
    (hid : p.id = id) (hamt : minStakeAmount ≤ amount) :
    ∃ msg st2, stake st id amount = .ok (msg, st2) ∧
      mapFind st2.participantStakeBalance id = some amount ∧
      mapFind st2.idToParticipantRecord id = some { p with hasStaked := true } ∧
      st2.supervisorList =
        (if p.isSupervisor then st.supervisorList ++ [{ p with hasStaked := true }]
          else st.supervisorList) := by
  subst hid
  rw [stake_ok st p.id amount p hp hamt]
  by_cases hsup : p.isSupervisor <;>
    exact ⟨_, _, rfl, by simp [hsup, mapFind_mapInsert_self],
      by simp [hsup, mapFind_mapInsert_self], by simp [hsup]⟩

/-- Witness for C5: staking 1500 for the registered supervisor v2 sets the
balance to 1500, marks them staked and appends them to the pool. -/
theorem stake_success_sets_balance_and_pool_witness :
    ∃ msg st2, stake stakeState "v2" 1500 = .ok (msg, st2) ∧
      mapFind st2.participantStakeBalance "v2" = some 1500 ∧
      mapFind st2.idToParticipantRecord "v2" = some { supNew with hasStaked := true } ∧
      st2.supervisorList =
        (if supNew.isSupervisor then stakeState.supervisorList ++ [{ supNew with hasStaked := true }]
          else stakeState.supervisorList) :=
  stake_success_sets_balance_and_pool stakeState "v2" 1500 supNew rfl rfl (by decide)

/-- C10: the StakeTooLow rejection uses a strict less-than comparison
against minStakeAmount = 1000, so staking exactly the threshold amount
succeeds for every existing participant. -/
theorem stake_at_minimum_threshold_succeeds (st : State) (id : String) (p : Participant)
    (hp : mapFind st.idToParticipantRecord id = some p) :
    minStakeAmount = 1000 ∧ ∃ msg st2, stake st id 1000 = .ok (msg, st2) := by
  refine ⟨rfl, ?_⟩
  rw [stake_ok st id 1000 p hp (Nat.le_refl 1000)]
  exact ⟨_, _, rfl⟩

/-- Witness for C10: staking exactly 1000 for the registered supervisor
v2 succeeds. -/
theorem stake_at_minimum_threshold_succeeds_witness :
    minStakeAmount = 1000 ∧ ∃ msg st2, stake stakeState "v2" 1000 = .ok (msg, st2) :=
  stake_at_minimum_threshold_succeeds stakeState "v2" supNew rfl

/-- C7: the due-date forfeiture callback zeroes the bound student's
balance, leaves every other table (participants, and hence hasStaked,
assignments, progress records, supervision index, uploaded work, timer
ids, supervisor pool) unchanged, is idempotent, and firing on an
already-zero balance leaves the whole state unchanged. -/
theorem forfeit_zeroes_balance_frame_idempotent (st : State) (pid : String) :
    mapFind (forfeit st pid).participantStakeBalance pid = some 0 ∧
    (forfeit st pid).idToParticipantRecord = st.idToParticipantRecord ∧
    (forfeit st pid).assignmentStorage = st.assignmentStorage ∧
    (forfeit st pid).progressStorage = st.progressStorage ∧
    (forfeit st pid).workUnderSupervison = st.workUnderSupervison ∧
    (forfeit st pid).uploadedWork = st.uploadedWork ∧
    (forfeit st pid).timerIdStorage = st.timerIdStorage ∧
    (forfeit st pid).supervisorList = st.supervisorList ∧
    forfeit (forfeit st pid) pid = forfeit st pid ∧
    (mapFind st.participantStakeBalance pid = some 0 → forfeit st pid = st) := by
  refine ⟨mapFind_mapInsert_self _ _ _, rfl, rfl, rfl, rfl, rfl, rfl, rfl, ?_, ?_⟩
  · have h2 := mapInsert_of_find_eq _ pid 0
      (mapFind_mapInsert_self st.participantStakeBalance pid 0)
    simp [forfeit, h2]
  · intro h
    have h2 := mapInsert_of_find_eq _ pid 0 h
    simp [forfeit, h2]

/-- Witness for C7: firing the forfeiture on a state whose only balance is
already zero leaves the state unchanged. -/
theorem forfeit_zeroes_balance_frame_idempotent_witness :
    forfeit zeroBalState "s1" = zeroBalState :=
  (forfeit_zeroes_balance_frame_idempotent zeroBalState "s1").2.2.2.2.2.2.2.2.2 rfl

/-- C8: when uploadAssignment succeeds with assignment id aid and matched
supervisor s, and uploadSolution(aid, w) then succeeds, viewTheWorkDone
on the supervisor's id returns exactly w (the calls are immediately
sequenced, so no later upload or reassignment intervenes). -/
theorem upload_roundtrip_viewTheWorkDone (st : State) (r : ℚ) (aid rid sid w : String)
    (info : AssignmentInfo) (res : String) (st1 st2 : State) (s : Participant)
    (h1 : uploadAssignment st r aid rid sid info = .ok (res, st1))
    (hs : listGetInt st.supervisorList
        (randomInt r ((st.supervisorList.length : Int) - 1) 0) = some s)
    (h2 : uploadSolution st1 aid w = .ok st2) :
    viewTheWorkDone st2 s.id = .ok w := by
  obtain ⟨student, sup, hstu, hstk, hsup, hres, hst1⟩ := uploadAssignment_ok_elim h1
  have hse : s = sup := Option.some.inj (hs.symm.trans hsup)
  subst hse
  subst hst1
  simp only [uploadSolution] at h2
  split at h2
  · exact absurd h2 (by simp)
  next asg hasg =>
    simp only [Except.ok.injEq] at h2
    subst h2
    have hw : mapFind
        ({ uploadResultState st aid rid info student s with
            uploadedWork := mapInsert
              (uploadResultState st aid rid info student s).uploadedWork aid w }
          : State).workUnderSupervison s.id = some rid := by
      show mapFind (mapInsert st.workUnderSupervison s.id rid) s.id = some rid
      exact mapFind_mapInsert_self _ _ _
    have hp : mapFind
        ({ uploadResultState st aid rid info student s with
            uploadedWork := mapInsert
              (uploadResultState st aid rid info student s).uploadedWork aid w }
          : State).progressStorage rid =
        some { id := rid, studentId := student.id, supervisorId := s.id,
               assignmentId := aid, isFinished := false } := by
      show mapFind (mapInsert st.progressStorage rid _) rid = _
      exact mapFind_mapInsert_self _ _ _
    have hu : mapFind
        ({ uploadResultState st aid rid info student s with
            uploadedWork := mapInsert
              (uploadResultState st aid rid info student s).uploadedWork aid w }
          : State).uploadedWork aid = some w := by
      show mapFind (mapInsert (uploadResultState st aid rid info student s).uploadedWork
        aid w) aid = some w
      exact mapFind_mapInsert_self _ _ _
    simp only [viewTheWorkDone, hw, hp, hu]

/-- Helper for the C8 witness: on roundState with draw 0 the matcher index
is 1, which selects sup1 from the two-supervisor pool. -/
theorem roundState_match : listGetInt roundState.supervisorList
    (randomInt 0 ((roundState.supervisorList.length : Int) - 1) 0) = some sup1 := by
  rw [show ((roundState.supervisorList.length : Int) - 1) = 1 from by
    norm_num [roundState, emptyState], randomInt_zero]
  norm_num [listGetInt, roundState, emptyState]

/-- Helper for the C8 witness: the concrete successful uploadAssignment
run on roundState. -/
theorem roundState_upload_eq :
    uploadAssignment roundState 0 "a1" "p1" "s1" { topic := "t", dueDate := 1 } =
      .ok ("p1", roundStateAfterUpload) := by
  simp [uploadAssignment, linkStudentToSuperVisor, randomInt_zero, listGetInt, mapFind,
    mapInsert, roundState, roundStateAfterUpload, emptyState, stu1, sup0, sup1, rec1, asg1,
    setDueDate]

/-- Witness for C8: the concrete round trip on roundState ends with
viewTheWorkDone("v1") returning the uploaded text "done". -/
theorem upload_roundtrip_viewTheWorkDone_witness :
    viewTheWorkDone roundStateAfterSolution "v1" = .ok "done" :=
  upload_roundtrip_viewTheWorkDone roundState 0 "a1" "p1" "s1" "done"
    { topic := "t", dueDate := 1 } "p1" roundStateAfterUpload roundStateAfterSolution sup1
    roundState_upload_eq roundState_match rfl

/-- C9: with exactly one supervisor in the pool, the selection index
randomInt(length-1, 0) = floor(r*(0) + 1) + 0 equals 1 for every draw r
in [0,1), which is out of bounds for the one-element pool, so
linkStudentToSuperVisor always fails with the generic error and
uploadAssignment can never succeed in matching the sole supervisor. -/
theorem single_supervisor_pool_never_matches (st : State) (r : ℚ) (newId : String)
    (student : Participant) (assignment : Assignment)
    (hlen : st.supervisorList.length = 1) (hr0 : 0 ≤ r) (hr1 : r < 1) :
    randomInt r ((st.supervisorList.length : Int) - 1) 0 = 1 ∧
    linkStudentToSuperVisor st r newId student assignment = .error .LinkFailed ∧
    ∀ aid rid sid info res, uploadAssignment st r aid rid sid info ≠ .ok res := by
  have hidx : randomInt r ((st.supervisorList.length : Int) - 1) 0 = 1 := by
    rw [hlen]
    norm_num [randomInt]
  have hget : listGetInt st.supervisorList 1 = none := by
    rw [listGetInt]
    norm_num [hlen]
  have hlk : ∀ (nid : String) (stu : Participant) (asg : Assignment),
      linkStudentToSuperVisor st r nid stu asg = .error .LinkFailed := by
    intro nid stu asg
    simp only [linkStudentToSuperVisor, hidx, hget]
  refine ⟨hidx, hlk newId student assignment, ?_⟩
  intro aid rid sid info res hok
  obtain ⟨stu, sup, hstu, hstk, hsup, _, _⟩ := uploadAssignment_ok_elim hok
  rw [hidx, hget] at hsup
  exact Option.noConfusion hsup

/-- Witness for C9: on singlePoolState with draw 0 the index is 1, the
matcher fails with the generic error, and a staked student's upload does
not succeed. -/
theorem single_supervisor_pool_never_matches_witness :
    randomInt 0 ((singlePoolState.supervisorList.length : Int) - 1) 0 = 1 ∧
    linkStudentToSuperVisor singlePoolState 0 "p1" stu1 asg1 = .error .LinkFailed ∧
    uploadAssignment singlePoolState 0 "a1" "p1" "s1" { topic := "t", dueDate := 1 } ≠
      .ok ("p1", emptyState) := by
  have h := single_supervisor_pool_never_matches singlePoolState 0 "p1" stu1 asg1 rfl
    (le_refl 0) (by norm_num)
  exact ⟨h.1, h.2.1, h.2.2 "a1" "p1" "s1" { topic := "t", dueDate := 1 } ("p1", emptyState)⟩

end AssignmentMonitor
